import Mathlib

/-!
Verification of the SSEBop Earth Engine image model
(`src/openet/ssebop/model.py`).

The Python module builds lazy Earth Engine computation graphs.  The shallow
embedding below models:
  * per-pixel band values as rationals (`ℚ`); a possibly masked pixel is an
    `Option ℚ` (`none` = no-data);
  * configuration source values (`dt_source`, `elev_source`, `tcorr_source`,
    `tmax_source`), which in Python may be a number or a string, as `SrcVal`;
  * external Earth Engine assets (feature tables, image collections) as
    explicit environment records passed to each resolver;
  * `logging.error` followed by `sys.exit()` as `Except.error .exitError`,
    and an uncaught Python `KeyError` on a dict access as
    `Except.error (.keyError k)`.
-/

deriving instance DecidableEq for Except

namespace SSEBop

/-- A parameter source value: in the Python API each of the four source
parameters is either a number or a string (model.py passes them through
`_is_number`, which tries `float(x)`). -/
inductive SrcVal where
  | num (q : ℚ)
  | str (s : String)
deriving DecidableEq

/-- Python `str.upper()` (the keywords handled here are ASCII). -/
def upperS (s : String) : String := String.mk (s.data.map Char.toUpper)

/-- Python `str.lower()`. -/
def lowerS (s : String) : String := String.mk (s.data.map Char.toLower)

/-- Python `str.startswith(p)`. -/
def startsWithS (s p : String) : Bool := p.data.isPrefixOf s.data

/-- Strip leading and trailing whitespace (Python `float` accepts it). -/
def trimChars (cs : List Char) : List Char :=
  ((cs.dropWhile Char.isWhitespace).reverse.dropWhile Char.isWhitespace).reverse

/-- Value of a digit string (most significant first). -/
def digitsVal (cs : List Char) : Nat :=
  cs.foldl (fun a c => a * 10 + (c.toNat - 48)) 0

/-- Parse an unsigned decimal mantissa: digits with at most one dot and at
least one digit overall (`"20"`, `"0.95"`, `".5"`, `"5."`). -/
def parseUnsigned (cs : List Char) : Option ℚ :=
  let ip := cs.takeWhile Char.isDigit
  let r1 := cs.drop ip.length
  match r1 with
  | [] => if ip.isEmpty then none else some (digitsVal ip : ℚ)
  | c :: r2 =>
    if c = '.' then
      let fp := r2.takeWhile Char.isDigit
      let r3 := r2.drop fp.length
      if r3.isEmpty then
        if ip.isEmpty && fp.isEmpty then none
        else some ((digitsVal ip : ℚ) + (digitsVal fp : ℚ) / 10 ^ fp.length)
      else none
    else none

/-- Models acceptance of a string by Python `float(x)` (model.py line 662):
optional surrounding whitespace, optional sign, decimal mantissa, optional
`e`/`E` exponent.  The special spellings `inf`/`infinity`/`nan` and digit
group underscores accepted by CPython are not modelled (no finite rational
value / not exercised by this module's keywords). -/
def parseFloat (s : String) : Option ℚ :=
  let cs := trimChars s.data
  let sgncs : ℚ × List Char :=
    match cs with
    | '-' :: r => (-1, r)
    | '+' :: r => (1, r)
    | _ => (1, cs)
  let mant := sgncs.2.takeWhile (fun c => c != 'e' && c != 'E')
  let rest := sgncs.2.drop mant.length
  match parseUnsigned mant with
  | none => none
  | some m =>
    match rest with
    | [] => some (sgncs.1 * m)
    | _ :: er =>
      let esgn : Int × List Char :=
        match er with
        | '-' :: r => (-1, r)
        | '+' :: r => (1, r)
        | _ => (1, er)
      let ed := esgn.2.takeWhile Char.isDigit
      if ed.isEmpty then none
      else if (esgn.2.drop ed.length).isEmpty then
        some (sgncs.1 * m * (10 : ℚ) ^ (esgn.1 * (digitsVal ed : Int)))
      else none

/-- `_is_number` (model.py lines 660-665): `try: float(x); return True`. -/
def is_number : SrcVal → Bool
  | .num _ => true
  | .str s => (parseFloat s).isSome

/-- Numeric value of a source that passed `is_number`. -/
def toNum : SrcVal → ℚ
  | .num q => q
  | .str s => (parseFloat s).getD 0

/-- `source.upper()`.  Only ever applied after `is_number` returned false,
so the `.num` case is unreachable (Python would raise `AttributeError`). -/
def srcUpper : SrcVal → String
  | .num _ => ""
  | .str s => upperS s

/-- `source.lower()`; `.num` unreachable as in `srcUpper`. -/
def srcLower : SrcVal → String
  | .num _ => ""
  | .str s => lowerS s

/-- The raw string of a string-valued source; `.num` unreachable in the
places this is used. -/
def srcStr : SrcVal → String
  | .num _ => ""
  | .str s => s

/-- Earth Engine `image.clamp(lo, hi)` on a single pixel value. -/
def clampQ (lo hi x : ℚ) : ℚ := max lo (min hi x)

/-- Python dict access / `in dict.keys()` over a literal dict, modelled as
first-match lookup in the association list of the dict's entries. -/
def dictFind (k : String) : List (String × α) → Option α
  | [] => none
  | (a, v) :: rest => if k = a then some v else dictFind k rest

/-- How a resolver aborts: `exitError` models `logging.error` followed by
`sys.exit()`; `keyError k` models an uncaught Python `KeyError` raised by a
dict subscript on a missing key `k`. -/
inductive ResolveErr where
  | exitError
  | keyError (k : String)
deriving DecidableEq

/-! ## dT resolution (`Image._dt`, model.py lines 221-248) -/

/-- External dT assets: for each of the two dataset versions, the per-pixel
value of the first image of the collection filtered to a given day of year
(`ee.Filter.calendarRange(doy, doy, 'day_of_year')` then `.first()`). -/
structure DtEnv where
  daymetV0 : Nat → ℚ
  daymetV1 : Nat → ℚ

/-- `Image._dt`: numeric source → `ee.Image.constant(value)` (no clamp);
`DAYMET_MEDIAN_V0` / `DAYMET_MEDIAN_V1` → first image at the scene's day of
year, clamped to [6, 25] K; anything else → log + `sys.exit()`.  The result
is the uniform per-pixel value of the returned `dt_img`. -/
def _dt (source : SrcVal) (env : DtEnv) (doy : Nat) : Except ResolveErr ℚ :=
  if is_number source then .ok (toNum source)
  else if srcUpper source ∈ ["DAYMET_MEDIAN_V0"] then
    .ok (clampQ 6 25 (env.daymetV0 doy))
  else if srcUpper source = "DAYMET_MEDIAN_V1" then
    .ok (clampQ 6 25 (env.daymetV1 doy))
  else .error .exitError

/-! ## Elevation resolution (`Image._elev`, model.py lines 250-269) -/

/-- The elevation image before the final `.select([0], ['elev'])` band
rename: either a constant image or a named dataset/asset reference. -/
inductive ElevImg where
  | const (q : ℚ)
  | asset (id : String)
deriving DecidableEq

/-- `Image._elev`: numeric constant, four named datasets, or a direct asset
id recognised by a `projects/` / `users/` prefix; else log + `sys.exit()`.
(`ee.Image.constant(ee.Number(src))` on a numeric string is modelled as the
constant image of the parsed value.) -/
def _elev (source : SrcVal) : Except ResolveErr ElevImg :=
  if is_number source then .ok (.const (toNum source))
  else if srcUpper source = "ASSET" then .ok (.asset "projects/usgs-ssebop/srtm_1km")
  else if srcUpper source = "GTOPO" then .ok (.asset "USGS/GTOPO30")
  else if srcUpper source = "NED" then .ok (.asset "USGS/NED")
  else if srcUpper source = "SRTM" then .ok (.asset "CGIAR/SRTM90_V4")
  else if startsWithS (srcLower source) "projects/" || startsWithS (srcLower source) "users/" then
    .ok (.asset (srcStr source))
  else .error .exitError

/-! ## Scene identity (`Image.__init__`, model.py lines 168-176) -/

/-- `ee.String.slice(a, b)`: characters in positions `[a, b)`. -/
def strSlice (s : String) (a b : Nat) : String :=
  String.mk ((s.data.drop a).take (b - a))

/-- Split a character list on `'_'`, keeping empty fragments
(Python-style split). -/
def splitU : List Char → List Char → List String
  | [], acc => [String.mk acc.reverse]
  | c :: rest, acc =>
    if c = '_' then String.mk acc.reverse :: splitU rest []
    else splitU rest (c :: acc)

/-- `ee.String.split('_')`: the Earth Engine backend follows Java `split`
semantics, which drop trailing empty fragments. -/
def eeSplitU (s : String) : List String :=
  ((splitU s.data []).reverse.dropWhile (fun t => t == "")).reverse

/-- SCENE_ID construction: the trailing three tokens of the `system:index`
string rejoined with `'_'` (`ee.List(idx.split('_')).slice(-3)` then three
`.get`/`.cat` calls).  `none` models the server-side error raised by
`.get(i)` when fewer than three tokens exist. -/
def sceneIdOfIndex (index : String) : Option String :=
  let toks := eeSplitU index
  let last3 := toks.drop (toks.length - 3)
  match last3.get? 0, last3.get? 1, last3.get? 2 with
  | some a, some b, some c => some (a ++ "_" ++ b ++ "_" ++ c)
  | _, _, _ => none

/-- WRS2_TILE construction from the scene id
(`'p' + sceneId[5:8] + 'r' + sceneId[8:11]`).  Both this value and the
scene id are computed once in `__init__` and never reassigned. -/
def wrs2TileOfSceneId (sid : String) : String :=
  "p" ++ strSlice sid 5 8 ++ "r" ++ strSlice sid 8 11

/-! ## Emissivity (`Image._emissivity`, model.py lines 599-636) -/

/-- `Pv = ((ndvi - 0.2) / 0.3) ** 2`. -/
def Pv (ndvi : ℚ) : ℚ := ((ndvi - 2/10) / (3/10)) ^ 2

/-- `dE = ((1 - 0.97) * (1 - Pv)) * (0.55 * 0.99)`. -/
def dE (ndvi : ℚ) : ℚ := ((1 - 97/100) * (1 - Pv ndvi)) * (55/100 * 99/100)

/-- `RangeEmiss = (0.99 * Pv) + (0.97 * (1 - Pv)) + dE`. -/
def RangeEmiss (ndvi : ℚ) : ℚ :=
  (99/100) * Pv ndvi + (97/100) * (1 - Pv ndvi) + dE ndvi

/-- `Image._emissivity` at one pixel: the chain of `.where` updates (each
condition tests the original NDVI band) followed by
`.clamp(0.977, 0.99)`. -/
def _emissivity (ndvi : ℚ) : ℚ :=
  let e0 := ndvi
  let e1 := if ndvi < 0 then 985/1000 else e0
  let e2 := if 0 ≤ ndvi ∧ ndvi < 2/10 then 977/1000 else e1
  let e3 := if ndvi > 5/10 then 99/100 else e2
  let e4 := if 2/10 ≤ ndvi ∧ ndvi ≤ 5/10 then RangeEmiss ndvi else e3
  clampQ (977/1000) (99/100) e4

/-! ## ETf pixel computation (`Image.etf`, model.py lines 194-219) -/

/-- `'(lst * (-1) + tmax * tcorr + dt) / dt'`.  Only used with `dt ≠ 0`. -/
def etfRaw (lst dt tmax tcorr : ℚ) : ℚ := (lst * (-1) + tmax * tcorr + dt) / dt

/-- One pixel of `Image.etf` after the expression and its three
post-processing steps, in source order: `updateMask(etf.lt(1.3))`,
`.clamp(0, 1.05)`, `updateMask(tmax.subtract(lst).lte(tdiff_threshold))`.
`none` is a masked (no-data) pixel. -/
def etf_pixel (lst dt tmax tcorr tdiff : ℚ) : Option ℚ :=
  let e := etfRaw lst dt tmax tcorr
  let m1 : Option ℚ := if e < 13/10 then some e else none
  let m2 : Option ℚ := m1.map (clampQ 0 (21/20))
  if tmax - lst ≤ tdiff then m2 else none

/-! ## Tcorr resolution (`Image._tcorr`, model.py lines 271-353) -/

/-- A feature competing in the Tcorr selection, with its `INDEX` and
`TCORR` properties.  Per the index convention documented in `_tcorr`'s
docstring: 0 = scene-specific, 1 = monthly, 2 = default, 3 = user. -/
structure TcorrFtr where
  index : ℚ
  tcorr : ℚ
deriving DecidableEq

/-- External Tcorr catalog: for each feature-collection id, the scene table
rows `(SCENE_ID, TCORR)` and the monthly table rows
`(WRS2_TILE, MONTH, TCORR)`. -/
structure TcorrEnv where
  sceneTables : String → List (String × ℚ)
  monthTables : String → List (String × Int × ℚ)

/-- `scene_coll_dict` (model.py lines 288-298; `TOPOWX` is commented out in
the source). -/
def scene_coll_dict : List (String × String) :=
  [("CIMIS", "projects/usgs-ssebop/tcorr/cimis_scene"),
   ("DAYMET", "projects/usgs-ssebop/tcorr/daymet_scene"),
   ("GRIDMET", "projects/usgs-ssebop/tcorr/gridmet_scene"),
   ("CIMIS_MEDIAN_V1", "projects/usgs-ssebop/tcorr/cimis_median_v1_scene"),
   ("DAYMET_MEDIAN_V0", "projects/usgs-ssebop/tcorr/daymet_median_v0_scene"),
   ("DAYMET_MEDIAN_V1", "projects/usgs-ssebop/tcorr/daymet_median_v1_scene"),
   ("GRIDMET_MEDIAN_V1", "projects/usgs-ssebop/tcorr/gridmet_median_v1_scene"),
   ("TOPOWX_MEDIAN_V0", "projects/usgs-ssebop/tcorr/topowx_median_v0_scene")]

/-- `month_coll_dict` (model.py lines 299-309; `TOPOWX` is commented out in
the source). -/
def month_coll_dict : List (String × String) :=
  [("CIMIS", "projects/usgs-ssebop/tcorr/cimis_monthly"),
   ("DAYMET", "projects/usgs-ssebop/tcorr/daymet_monthly"),
   ("GRIDMET", "projects/usgs-ssebop/tcorr/gridmet_monthly"),
   ("CIMIS_MEDIAN_V1", "projects/usgs-ssebop/tcorr/cimis_median_v1_monthly"),
   ("DAYMET_MEDIAN_V0", "projects/usgs-ssebop/tcorr/daymet_median_v0_monthly"),
   ("DAYMET_MEDIAN_V1", "projects/usgs-ssebop/tcorr/daymet_median_v1_monthly"),
   ("GRIDMET_MEDIAN_V1", "projects/usgs-ssebop/tcorr/gridmet_median_v1_monthly"),
   ("TOPOWX_MEDIAN_V0", "projects/usgs-ssebop/tcorr/topowx_median_v0_monthly")]

/-- `default_value_dict` (model.py lines 310-320): nine keys, including
`TOPOWX`, every value 0.978. -/
def default_value_dict : List (String × ℚ) :=
  [("CIMIS", 978/1000), ("DAYMET", 978/1000), ("GRIDMET", 978/1000),
   ("TOPOWX", 978/1000), ("CIMIS_MEDIAN_V1", 978/1000),
   ("DAYMET_MEDIAN_V0", 978/1000), ("DAYMET_MEDIAN_V1", 978/1000),
   ("GRIDMET_MEDIAN_V1", 978/1000), ("TOPOWX_MEDIAN_V0", 978/1000)]

/-- `.filterMetadata('WRS2_TILE', 'equals', wrs2).filterMetadata('MONTH',
'equals', month)` on the monthly table of collection `collId`. -/
def monthMatches (env : TcorrEnv) (collId wrs2 : String) (mon : Int) :
    List (String × Int × ℚ) :=
  (env.monthTables collId).filter (fun r => r.1 == wrs2 && r.2.1 == mon)

/-- `.filterMetadata('SCENE_ID', 'equals', sceneId)` on the scene table of
collection `collId`. -/
def sceneMatches (env : TcorrEnv) (collId sid : String) : List (String × ℚ) :=
  (env.sceneTables collId).filter (fun r => r.1 == sid)

/-- `.sort('INDEX')` followed by `.first()`: the earliest feature with the
numerically smallest `INDEX` (Earth Engine's sort is stable). -/
def sortFirst : List TcorrFtr → Option TcorrFtr
  | [] => none
  | f :: rest =>
    match sortFirst rest with
    | none => some f
    | some g => if f.index ≤ g.index then some f else some g

/-- `Image._tcorr`: numeric source → `(value, 3)` immediately; otherwise
check the Tmax key against `default_value_dict`, build the default feature
`(INDEX 2, 0.978)`, the filtered monthly features (`INDEX 1`) and — only
for `tcorr_source == 'SCENE'` — the filtered scene features (`INDEX 0`),
merge, sort by `INDEX` and take the first.  The monthly dict subscript at
line 332 runs before the SCENE/MONTH dispatch, so a Tmax key absent from
`month_coll_dict` (i.e. `TOPOWX`) raises `KeyError` there. -/
def _tcorr (tcorrSource tmaxSource : SrcVal) (sceneId wrs2Tile : String)
    (mon : Int) (env : TcorrEnv) : Except ResolveErr (ℚ × ℚ) :=
  if is_number tcorrSource then .ok (toNum tcorrSource, 3)
  else
    let tmaxKey := srcUpper tmaxSource
    match dictFind tmaxKey default_value_dict with
    | none => .error .exitError
    | some defaultValue =>
      let default_coll : List TcorrFtr := [⟨2, defaultValue⟩]
      match dictFind tmaxKey month_coll_dict with
      | none => .error (.keyError tmaxKey)
      | some monthCollId =>
        let month_coll : List TcorrFtr :=
          (monthMatches env monthCollId wrs2Tile mon).map (fun r => ⟨1, r.2.2⟩)
        if srcUpper tcorrSource = "SCENE" then
          match dictFind tmaxKey scene_coll_dict with
          | none => .error (.keyError tmaxKey)
          | some sceneCollId =>
            let scene_coll : List TcorrFtr :=
              (sceneMatches env sceneCollId sceneId).map (fun r => ⟨0, r.2⟩)
            match sortFirst (default_coll ++ month_coll ++ scene_coll) with
            | some f => .ok (f.tcorr, f.index)
            | none => .error .exitError
        else if srcUpper tcorrSource = "MONTH" then
          match sortFirst (default_coll ++ month_coll) with
          | some f => .ok (f.tcorr, f.index)
          | none => .error .exitError
        else .error .exitError

/-! ## Tmax resolution (`Image._tmax`, model.py lines 355-471) -/

/-- The `TMAX_VERSION` property: `custom src` models the string
`'CUSTOM_{src}'`, `vdate d` the string `d` (today's calendar date), and
`vmedian l` the fixed median label `l` (e.g. `"median_v0"`). -/
inductive TmaxVer where
  | custom (src : SrcVal)
  | vdate (d : String)
  | vmedian (label : String)
deriving DecidableEq

/-- Which image was selected: a constant, the first image of a daily
collection filtered to the scene's day window, or the first image of a
day-of-year-filtered median collection. -/
inductive TmaxPick where
  | const (q : ℚ)
  | daily (collId : String)
  | median (collId : String)
deriving DecidableEq

/-- The resolved Tmax image: selection, `TMAX_VERSION`, `TMAX_SOURCE`. -/
structure TmaxImage where
  pick : TmaxPick
  ver : TmaxVer
  src : SrcVal
deriving DecidableEq

/-- External daily Tmax data: the number of images in the daily collection
(by collection id) once filtered to the scene's UTC day window
(`filterDate(start, end)`; the DAYMET branch extends the window one extra
day for the leap-year gap). -/
structure TmaxEnv where
  dailySize : String → Nat

/-- The branch dispatch of `Image._tmax` before the final
`set('TMAX_SOURCE', ...)`: selected image and its `TMAX_VERSION`.
Each daily-family keyword uses `ee.Algorithms.If(daily_coll.size().gt(0),
daily_image, median_image)`. -/
def tmaxCore (source : SrcVal) (env : TmaxEnv) (dateToday : String) :
    Except ResolveErr (TmaxPick × TmaxVer) :=
  if is_number source then .ok (.const (toNum source), .custom source)
  else if srcUpper source = "CIMIS" then
    .ok (if 0 < env.dailySize "projects/climate-engine/cimis/daily" then
           (.daily "projects/climate-engine/cimis/daily", .vdate dateToday)
         else
           (.median "projects/usgs-ssebop/tmax/cimis_median_v1", .vmedian "median_v1"))
  else if srcUpper source = "DAYMET" then
    .ok (if 0 < env.dailySize "NASA/ORNL/DAYMET_V3" then
           (.daily "NASA/ORNL/DAYMET_V3", .vdate dateToday)
         else
           (.median "projects/usgs-ssebop/tmax/daymet_median_v0", .vmedian "median_v0"))
  else if srcUpper source = "GRIDMET" then
    .ok (if 0 < env.dailySize "IDAHO_EPSCOR/GRIDMET" then
           (.daily "IDAHO_EPSCOR/GRIDMET", .vdate dateToday)
         else
           (.median "projects/usgs-ssebop/tmax/gridmet_median_v1", .vmedian "median_v1"))
  else if srcUpper source = "CIMIS_MEDIAN_V1" then
    .ok (.median "projects/usgs-ssebop/tmax/cimis_median_v1", .vmedian "median_v1")
  else if srcUpper source = "DAYMET_MEDIAN_V0" then
    .ok (.median "projects/usgs-ssebop/tmax/daymet_median_v0", .vmedian "median_v0")
  else if srcUpper source = "DAYMET_MEDIAN_V1" then
    .ok (.median "projects/usgs-ssebop/tmax/daymet_median_v1", .vmedian "median_v1")
  else if srcUpper source = "GRIDMET_MEDIAN_V1" then
    .ok (.median "projects/usgs-ssebop/tmax/gridmet_median_v1", .vmedian "median_v1")
  else if srcUpper source = "TOPOWX_MEDIAN_V0" then
    .ok (.median "projects/usgs-ssebop/tmax/topowx_median_v0", .vmedian "median_v0")
  else .error .exitError

/-- `Image._tmax`: the branch dispatch followed by the unconditional
`return ee.Image(tmax_image.set('TMAX_SOURCE', self._tmax_source))`. -/
def _tmax (source : SrcVal) (env : TmaxEnv) (dateToday : String) :
    Except ResolveErr TmaxImage :=
  (tmaxCore source env dateToday).map (fun pv => ⟨pv.1, pv.2, source⟩)

/-! ## Collection builder (`collection`, model.py lines 26-112) -/

/-- Error taxonomy of `collection`: both `ValueError('unsupported variable:
...')` raises and the `ValueError('unsupported collection: ...')` raise. -/
inductive CollErr where
  | unsupportedVariable (v : String)
  | unsupportedCollection (c : String)
deriving DecidableEq

/-- `landsat_c1_toa_collections` (model.py lines 57-63). -/
def landsat_c1_toa_collections : List String :=
  ["LANDSAT/LC08/C01/T1_RT_TOA",
   "LANDSAT/LE07/C01/T1_RT_TOA",
   "LANDSAT/LC08/C01/T1_TOA",
   "LANDSAT/LE07/C01/T1_TOA",
   "LANDSAT/LT05/C01/T1_TOA"]

/-- The attribute names `dir(Image)` contributes for the membership test at
line 68 (methods and properties defined in the class; inherited dunder
names are omitted — for any of those the second check raises the same
unsupported-variable error, so membership is immaterial to the result). -/
def dirImageAttrs : List String :=
  ["etf", "from_landsat_c1_toa", "_dt", "_elev", "_tcorr", "_tmax",
   "_ndvi", "_lst", "_emissivity"]

/-- The per-collection loop of `collection`: each id is checked against the
recognised Landsat Collection-1 TOA set; the first unrecognised id raises
`ValueError` (per-scene processing is deferred Earth Engine work, so no
scene has been processed at that point).  Accepted ids are filtered,
mapped and merged in order; the result keeps their ids. -/
def buildVarColls : List String → Except CollErr (List String)
  | [] => .ok []
  | c :: rest =>
    if c ∈ landsat_c1_toa_collections then
      match buildVarColls rest with
      | .ok l => .ok (c :: l)
      | .error e => .error e
    else .error (.unsupportedCollection c)

/-- The `collection` function's validation and merge logic: lower-case the
variable, test it against `dir(Image)` and against `['etf']`, then run the
per-collection loop.  (Date/geometry filtering and the final hand-off to
`openet.interp.daily_et` act on external collections and are outside the
embedded control flow.) -/
def collection (varName : String) (collections : List String) :
    Except CollErr (List String) :=
  let v := lowerS varName
  if v ∉ dirImageAttrs then .error (.unsupportedVariable v)
  else if v ∉ ["etf"] then .error (.unsupportedVariable v)
  else buildVarColls collections

/-! ## Lazy property and the composed `etf` (model.py lines 10-22, 194-219) -/

/-- One access through the `lazy_property` decorator: if the cache holds a
value, return it unchanged; otherwise run `fn`, store its result and bump
the count of times the wrapped computation has run. -/
def lazy_property (fn : Unit → α) : Option α × Nat → α × (Option α × Nat)
  | (some v, n) => (v, (some v, n))
  | (none, n) => (fn (), (some (fn ()), n + 1))

/-- The computed `etf` image: the resolved Tcorr pair (attached as the
`TCORR` / `TCORR_INDEX` properties), the resolved Tmax image, the resolved
uniform dT value, and the per-pixel map `(lst, tmaxPixel) ↦ etf`. -/
structure EtfImage where
  tcorr : ℚ
  tcorrIndex : ℚ
  tmaxImg : TmaxImage
  dtVal : ℚ
  pixel : ℚ → ℚ → Option ℚ

/-- The body of `Image.etf`: resolve Tcorr, Tmax and dT, then build the
masked/clamped ETf expression. -/
def etfCompute (dtSrc tcorrSrc tmaxSrc : SrcVal) (sceneId wrs2 : String)
    (mon : Int) (doy : Nat) (tdiff : ℚ) (tEnv : TcorrEnv) (mEnv : TmaxEnv)
    (dEnv : DtEnv) (dateToday : String) : Except ResolveErr EtfImage :=
  match _tcorr tcorrSrc tmaxSrc sceneId wrs2 mon tEnv with
  | .error e => .error e
  | .ok tc =>
    match _tmax tmaxSrc mEnv dateToday with
    | .error e => .error e
    | .ok tmaxImg =>
      match _dt dtSrc dEnv doy with
      | .error e => .error e
      | .ok dtv =>
        .ok ⟨tc.1, tc.2, tmaxImg, dtv,
             fun lst tmaxPx => etf_pixel lst dtv tmaxPx tc.1 tdiff⟩

/-- One access of the lazily cached `etf` property of an `Image` instance:
`lazy_property` applied to the `etf` body, threading the instance's cache
attribute and a count of how many times the body has run. -/
def etfAccess (dtSrc tcorrSrc tmaxSrc : SrcVal) (sceneId wrs2 : String)
    (mon : Int) (doy : Nat) (tdiff : ℚ) (tEnv : TcorrEnv) (mEnv : TmaxEnv)
    (dEnv : DtEnv) (dateToday : String)
    (st : Option (Except ResolveErr EtfImage) × Nat) :
    Except ResolveErr EtfImage × (Option (Except ResolveErr EtfImage) × Nat) :=
  lazy_property
    (fun _ => etfCompute dtSrc tcorrSrc tmaxSrc sceneId wrs2 mon doy tdiff
      tEnv mEnv dEnv dateToday) st

/-! ## Helper lemmas -/

lemma clampQ_of_mem {lo hi x : ℚ} (h1 : lo ≤ x) (h2 : x ≤ hi) :
    clampQ lo hi x = x := by
  unfold clampQ
  rw [min_eq_right h2, max_eq_right h1]

lemma clampQ_bounds {lo hi : ℚ} (x : ℚ) (h : lo ≤ hi) :
    lo ≤ clampQ lo hi x ∧ clampQ lo hi x ≤ hi :=
  ⟨le_max_left _ _, max_le h (min_le_left _ _)⟩

lemma rangeEmiss_bounds {ndvi : ℚ} (h1 : 2/10 ≤ ndvi) (h2 : ndvi ≤ 5/10) :
    977/1000 ≤ RangeEmiss ndvi ∧ RangeEmiss ndvi ≤ 99/100 := by
  unfold RangeEmiss dE Pv
  have hq : ((ndvi - 2/10) / (3/10)) = (ndvi - 2/10) * (10/3) := by ring
  rw [hq]
  have h3 : (0 : ℚ) ≤ (ndvi - 2/10) * (10/3) := by linarith
  have h4 : (ndvi - 2/10) * (10/3) ≤ 1 := by linarith
  constructor
  · nlinarith [sq_nonneg ((ndvi - 2/10) * (10/3))]
  · nlinarith [mul_nonneg h3 (by linarith : (0:ℚ) ≤ 1 - (ndvi - 2/10) * (10/3))]

lemma emissivity_is_clamped (ndvi : ℚ) :
    977/1000 ≤ _emissivity ndvi ∧ _emissivity ndvi ≤ 99/100 := by
  unfold _emissivity
  exact clampQ_bounds _ (by norm_num)

lemma emissivity_neg {ndvi : ℚ} (h : ndvi < 0) :
    _emissivity ndvi = 985/1000 := by
  simp only [_emissivity]
  rw [if_neg (by rintro ⟨h1, _⟩; linarith), if_neg (by intro h1; linarith),
    if_neg (by rintro ⟨h1, _⟩; linarith), if_pos h]
  exact clampQ_of_mem (by norm_num) (by norm_num)

lemma emissivity_low {ndvi : ℚ} (h0 : 0 ≤ ndvi) (h1 : ndvi < 2/10) :
    _emissivity ndvi = 977/1000 := by
  simp only [_emissivity]
  rw [if_neg (by rintro ⟨h2, _⟩; linarith), if_neg (by intro h2; linarith),
    if_pos ⟨h0, h1⟩]
  exact clampQ_of_mem (by norm_num) (by norm_num)

lemma emissivity_high {ndvi : ℚ} (h : ndvi > 5/10) :
    _emissivity ndvi = 99/100 := by
  simp only [_emissivity]
  rw [if_neg (by rintro ⟨_, h2⟩; linarith), if_pos h]
  exact clampQ_of_mem (by norm_num) (by norm_num)

lemma emissivity_mid {ndvi : ℚ} (h1 : 2/10 ≤ ndvi) (h2 : ndvi ≤ 5/10) :
    _emissivity ndvi = RangeEmiss ndvi := by
  obtain ⟨hlo, hhi⟩ := rangeEmiss_bounds h1 h2
  simp only [_emissivity]
  rw [if_pos ⟨h1, h2⟩]
  exact clampQ_of_mem hlo hhi

/-! ## Claim theorems -/

/-- C3: emissivity is a piecewise function of NDVI — NDVI < 0 gives 0.985;
0 ≤ NDVI < 0.2 gives 0.977; NDVI > 0.5 gives 0.99; 0.2 ≤ NDVI ≤ 0.5 gives
`0.99·Pv + 0.97·(1−Pv) + dE` (the final clamp being a no-op there); the
result always lies in [0.977, 0.99]; and clamping is idempotent on it. -/
theorem emissivity_piecewise :
    (∀ ndvi : ℚ, ndvi < 0 → _emissivity ndvi = 985/1000)
  ∧ (∀ ndvi : ℚ, 0 ≤ ndvi → ndvi < 2/10 → _emissivity ndvi = 977/1000)
  ∧ (∀ ndvi : ℚ, ndvi > 5/10 → _emissivity ndvi = 99/100)
  ∧ (∀ ndvi : ℚ, 2/10 ≤ ndvi → ndvi ≤ 5/10 →
       _emissivity ndvi =
         (99/100) * Pv ndvi + (97/100) * (1 - Pv ndvi) + dE ndvi)
  ∧ (∀ ndvi : ℚ, 977/1000 ≤ _emissivity ndvi ∧ _emissivity ndvi ≤ 99/100)
  ∧ (∀ ndvi : ℚ, clampQ (977/1000) (99/100) (_emissivity ndvi) =
       _emissivity ndvi) :=
  ⟨fun _ h => emissivity_neg h,
   fun _ h0 h1 => emissivity_low h0 h1,
   fun _ h => emissivity_high h,
   fun _ h1 h2 => emissivity_mid h1 h2,
   fun ndvi => emissivity_is_clamped ndvi,
   fun ndvi =>
     clampQ_of_mem (emissivity_is_clamped ndvi).1 (emissivity_is_clamped ndvi).2⟩

/-- Witness for C3: the four branches evaluated at concrete NDVI values. -/
theorem emissivity_piecewise_witness :
    _emissivity (-1/2) = 985/1000 ∧ _emissivity (1/10) = 977/1000
  ∧ _emissivity (6/10) = 99/100
  ∧ _emissivity (3/10) =
      (99/100) * Pv (3/10) + (97/100) * (1 - Pv (3/10)) + dE (3/10) :=
  ⟨emissivity_piecewise.1 (-1/2) (by norm_num),
   emissivity_piecewise.2.1 (1/10) (by norm_num) (by norm_num),
   emissivity_piecewise.2.2.1 (6/10) (by norm_num),
   emissivity_piecewise.2.2.2.1 (3/10) (by norm_num) (by norm_num)⟩

/-- C2: ETf is `(tmax·tcorr − lst + dt)/dt`, then in order: pixels with raw
value ≥ 1.3 are masked (even when `tmax − lst` passes the Tdiff screen),
surviving values are clamped to [0, 1.05], and pixels with
`tmax − lst > tdiffThreshold` are masked; raw 1.35 with `tmax − lst ≤ 15`
is masked, and raw 0.5 with `tmax − lst = 20 > 15` is masked. -/
theorem etf_masking_order :
    (∀ lst dt tmax tcorr tdiff : ℚ, dt ≠ 0 →
       (13/10 ≤ etfRaw lst dt tmax tcorr →
          etf_pixel lst dt tmax tcorr tdiff = none)
     ∧ (tdiff < tmax - lst → etf_pixel lst dt tmax tcorr tdiff = none)
     ∧ (etfRaw lst dt tmax tcorr < 13/10 → tmax - lst ≤ tdiff →
          etf_pixel lst dt tmax tcorr tdiff =
            some (clampQ 0 (21/20) (etfRaw lst dt tmax tcorr))))
  ∧ etfRaw 0 1 (7/20) 1 = 27/20 ∧ (7/20 : ℚ) - 0 ≤ 15
  ∧ etf_pixel 0 1 (7/20) 1 15 = none
  ∧ etfRaw 300 2 320 (299/320) = 1/2 ∧ (15 : ℚ) < 320 - 300
  ∧ etf_pixel 300 2 320 (299/320) 15 = none := by
  refine ⟨fun lst dt tmax tcorr tdiff _ => ⟨fun h => ?_, fun h => ?_, fun h1 h2 => ?_⟩,
    by norm_num [etfRaw], by norm_num, by with_unfolding_all decide,
    by norm_num [etfRaw], by norm_num, by with_unfolding_all decide⟩
  · simp only [etf_pixel, if_neg (not_lt.2 h), Option.map_none']
    exact ite_self none
  · simp only [etf_pixel]
    exact if_neg (not_le.2 h)
  · simp only [etf_pixel]
    rw [if_pos h2, if_pos h1, Option.map_some']

/-- Witness for C2: the masking conjuncts applied at concrete pixels. -/
theorem etf_masking_order_witness :
    etf_pixel 0 1 2 1 15 = none
  ∧ etf_pixel 1 1 1 1 15 =
      some (clampQ 0 (21/20) (etfRaw 1 1 1 1)) :=
  ⟨(etf_masking_order.1 0 1 2 1 15 (by norm_num)).1 (by norm_num [etfRaw]),
   (etf_masking_order.1 1 1 1 1 15 (by norm_num)).2.2
     (by norm_num [etfRaw]) (by norm_num)⟩

/-- C5: the scene id is the trailing three `'_'`-separated tokens of the
index string rejoined with `'_'`; the WRS2 tile is
`"p" + sceneId[5:8] + "r" + sceneId[8:11]`; and the index string
`"LC08_043033_20150805"` yields `wrs2Tile = "p043r033"`. -/
theorem scene_identity_derivation :
    (∀ (index : String) (pre : List String) (a b c : String),
       eeSplitU index = pre ++ [a, b, c] →
       sceneIdOfIndex index = some (a ++ "_" ++ b ++ "_" ++ c))
  ∧ (∀ sid : String, wrs2TileOfSceneId sid =
       "p" ++ strSlice sid 5 8 ++ "r" ++ strSlice sid 8 11)
  ∧ sceneIdOfIndex "LC08_043033_20150805" = some "LC08_043033_20150805"
  ∧ wrs2TileOfSceneId "LC08_043033_20150805" = "p043r033" := by
  refine ⟨?_, fun _ => rfl, by with_unfolding_all decide,
    by with_unfolding_all decide⟩
  intro index pre a b c h
  simp only [sceneIdOfIndex, h]
  have hlen : (pre ++ [a, b, c]).length - 3 = pre.length := by
    simp [List.length_append]
  rw [hlen, List.drop_left]
  rfl

/-- Witness for C5: the trailing-three-token rule applied to a five-token
index (a merged-collection index with two extra leading tokens). -/
theorem scene_identity_derivation_witness :
    sceneIdOfIndex "1_2_LC08_043033_20150805" = some "LC08_043033_20150805" :=
  scene_identity_derivation.1 "1_2_LC08_043033_20150805" ["1", "2"]
    "LC08" "043033" "20150805" (by with_unfolding_all decide)

/-- C8: dT resolution — a numeric source is returned as the constant image
unchanged (no clamp, shown at 100 ∉ [6, 25]); each of the two recognised
keyword dataset versions returns the first day-of-year-filtered record
clamped to [6, 25] K; any other keyword aborts. -/
theorem dt_resolution :
    (∀ (q : ℚ) (env : DtEnv) (doy : Nat), _dt (.num q) env doy = .ok q)
  ∧ (∀ (env : DtEnv) (doy : Nat),
       _dt (.str "DAYMET_MEDIAN_V0") env doy =
         .ok (clampQ 6 25 (env.daymetV0 doy)))
  ∧ (∀ (env : DtEnv) (doy : Nat),
       _dt (.str "DAYMET_MEDIAN_V1") env doy =
         .ok (clampQ 6 25 (env.daymetV1 doy)))
  ∧ (∀ (s : String) (env : DtEnv) (doy : Nat),
       is_number (.str s) = false →
       upperS s ∉ ["DAYMET_MEDIAN_V0", "DAYMET_MEDIAN_V1"] →
       _dt (.str s) env doy = .error .exitError)
  ∧ _dt (.num 100) ⟨fun _ => 0, fun _ => 0⟩ 1 = .ok 100 := by
  refine ⟨fun q env doy => rfl, fun env doy => ?_, fun env doy => ?_,
    fun s env doy hn hk => ?_, rfl⟩
  · simp only [_dt]
    rw [if_neg (by with_unfolding_all decide),
      if_pos (by with_unfolding_all decide)]
  · simp only [_dt]
    rw [if_neg (by with_unfolding_all decide),
      if_neg (by with_unfolding_all decide),
      if_pos (by with_unfolding_all decide)]
  · simp only [List.mem_cons, List.mem_singleton, not_or] at hk
    simp only [_dt, srcUpper]
    rw [if_neg (by simp [hn]), if_neg (by simp [hk.1]), if_neg hk.2.1]

/-- Witness for C8: the abort branch at the unrecognised keyword
`"GRIDMET"` (not a dT dataset). -/
theorem dt_resolution_witness :
    _dt (.str "GRIDMET") ⟨fun _ => 0, fun _ => 0⟩ 7 = .error .exitError :=
  dt_resolution.2.2.2.1 "GRIDMET" ⟨fun _ => 0, fun _ => 0⟩ 7
    (by with_unfolding_all decide) (by with_unfolding_all decide)

/-- C9: `etf` is memoized per instance — a second access returns the value
and leaves the cache state (including the count of body executions)
exactly as the first access left it; any access runs the body at most
once; a first access from a fresh instance runs it exactly once. -/
theorem etf_memoized :
    ∀ (dtSrc tcorrSrc tmaxSrc : SrcVal) (sceneId wrs2 : String) (mon : Int)
      (doy : Nat) (tdiff : ℚ) (tEnv : TcorrEnv) (mEnv : TmaxEnv)
      (dEnv : DtEnv) (dateToday : String)
      (st : Option (Except ResolveErr EtfImage) × Nat),
      etfAccess dtSrc tcorrSrc tmaxSrc sceneId wrs2 mon doy tdiff tEnv mEnv
          dEnv dateToday
          ((etfAccess dtSrc tcorrSrc tmaxSrc sceneId wrs2 mon doy tdiff tEnv
            mEnv dEnv dateToday st).2)
        = ((etfAccess dtSrc tcorrSrc tmaxSrc sceneId wrs2 mon doy tdiff tEnv
              mEnv dEnv dateToday st).1,
           (etfAccess dtSrc tcorrSrc tmaxSrc sceneId wrs2 mon doy tdiff tEnv
              mEnv dEnv dateToday st).2)
    ∧ ((etfAccess dtSrc tcorrSrc tmaxSrc sceneId wrs2 mon doy tdiff tEnv
          mEnv dEnv dateToday st).2).2 ≤ st.2 + 1
    ∧ ((etfAccess dtSrc tcorrSrc tmaxSrc sceneId wrs2 mon doy tdiff tEnv
          mEnv dEnv dateToday (none, 0)).2).2 = 1 := by
  intro dtSrc tcorrSrc tmaxSrc sceneId wrs2 mon doy tdiff tEnv mEnv dEnv
    dateToday st
  obtain ⟨c, n⟩ := st
  cases c <;> simp [etfAccess, lazy_property]

lemma tmax_tags_src {s : SrcVal} {env : TmaxEnv} {d : String} {t : TmaxImage}
    (h : _tmax s env d = .ok t) : t.src = s := by
  unfold _tmax at h
  cases hc : tmaxCore s env d <;> rw [hc] at h
  · exact absurd h (by simp [Except.map])
  · simp only [Except.map] at h
    cases h
    rfl

/-- C4: Tmax `"DAYMET"` uses the daily collection's first image tagged with
today's date when the day-window-filtered daily collection is non-empty,
and otherwise the day-of-year median composite tagged `median_v0` (the
other daily-family keywords behave the same with their own collections and
median labels); and every successful branch tags the result's
`TMAX_SOURCE` with the original source value. -/
theorem tmax_daily_fallback :
    (∀ (env : TmaxEnv) (d : String), 0 < env.dailySize "NASA/ORNL/DAYMET_V3" →
       _tmax (.str "DAYMET") env d =
         .ok ⟨.daily "NASA/ORNL/DAYMET_V3", .vdate d, .str "DAYMET"⟩)
  ∧ (∀ (env : TmaxEnv) (d : String), env.dailySize "NASA/ORNL/DAYMET_V3" = 0 →
       _tmax (.str "DAYMET") env d =
         .ok ⟨.median "projects/usgs-ssebop/tmax/daymet_median_v0",
              .vmedian "median_v0", .str "DAYMET"⟩)
  ∧ (∀ (env : TmaxEnv) (d : String),
       0 < env.dailySize "projects/climate-engine/cimis/daily" →
       _tmax (.str "CIMIS") env d =
         .ok ⟨.daily "projects/climate-engine/cimis/daily", .vdate d,
              .str "CIMIS"⟩)
  ∧ (∀ (env : TmaxEnv) (d : String),
       env.dailySize "projects/climate-engine/cimis/daily" = 0 →
       _tmax (.str "CIMIS") env d =
         .ok ⟨.median "projects/usgs-ssebop/tmax/cimis_median_v1",
              .vmedian "median_v1", .str "CIMIS"⟩)
  ∧ (∀ (env : TmaxEnv) (d : String), 0 < env.dailySize "IDAHO_EPSCOR/GRIDMET" →
       _tmax (.str "GRIDMET") env d =
         .ok ⟨.daily "IDAHO_EPSCOR/GRIDMET", .vdate d, .str "GRIDMET"⟩)
  ∧ (∀ (env : TmaxEnv) (d : String), env.dailySize "IDAHO_EPSCOR/GRIDMET" = 0 →
       _tmax (.str "GRIDMET") env d =
         .ok ⟨.median "projects/usgs-ssebop/tmax/gridmet_median_v1",
              .vmedian "median_v1", .str "GRIDMET"⟩)
  ∧ (∀ (s : SrcVal) (env : TmaxEnv) (d : String) (t : TmaxImage),
       _tmax s env d = .ok t → t.src = s) := by
  refine ⟨fun env d h => ?_, fun env d h => ?_, fun env d h => ?_,
    fun env d h => ?_, fun env d h => ?_, fun env d h => ?_,
    fun s env d t h => tmax_tags_src h⟩
  all_goals simp only [_tmax, tmaxCore]
  · rw [if_neg (by with_unfolding_all decide),
      if_neg (by with_unfolding_all decide),
      if_pos (by with_unfolding_all decide), if_pos h]
    rfl
  · rw [if_neg (by with_unfolding_all decide),
      if_neg (by with_unfolding_all decide),
      if_pos (by with_unfolding_all decide), if_neg (by rw [h]; exact lt_irrefl 0)]
    rfl
  · rw [if_neg (by with_unfolding_all decide),
      if_pos (by with_unfolding_all decide), if_pos h]
    rfl
  · rw [if_neg (by with_unfolding_all decide),
      if_pos (by with_unfolding_all decide), if_neg (by rw [h]; exact lt_irrefl 0)]
    rfl
  · rw [if_neg (by with_unfolding_all decide),
      if_neg (by with_unfolding_all decide),
      if_neg (by with_unfolding_all decide),
      if_pos (by with_unfolding_all decide), if_pos h]
    rfl
  · rw [if_neg (by with_unfolding_all decide),
      if_neg (by with_unfolding_all decide),
      if_neg (by with_unfolding_all decide),
      if_pos (by with_unfolding_all decide), if_neg (by rw [h]; exact lt_irrefl 0)]
    rfl

/-- Witness for C4: both DAYMET branches at concrete environments. -/
theorem tmax_daily_fallback_witness :
    _tmax (.str "DAYMET") ⟨fun _ => 1⟩ "2019-04-20" =
      .ok ⟨.daily "NASA/ORNL/DAYMET_V3", .vdate "2019-04-20", .str "DAYMET"⟩
  ∧ _tmax (.str "DAYMET") ⟨fun _ => 0⟩ "2019-04-20" =
      .ok ⟨.median "projects/usgs-ssebop/tmax/daymet_median_v0",
           .vmedian "median_v0", .str "DAYMET"⟩ :=
  ⟨tmax_daily_fallback.1 ⟨fun _ => 1⟩ "2019-04-20" (by norm_num),
   tmax_daily_fallback.2.1 ⟨fun _ => 0⟩ "2019-04-20" rfl⟩

lemma buildVarColls_err (cs : List String) (c : String) (hc : c ∈ cs)
    (hnl : c ∉ landsat_c1_toa_collections) :
    ∃ e, buildVarColls cs = .error (.unsupportedCollection e) ∧
      e ∉ landsat_c1_toa_collections := by
  induction cs with
  | nil => exact absurd hc (List.not_mem_nil c)
  | cons hd tl ih =>
    by_cases hhd : hd ∈ landsat_c1_toa_collections
    · have hct : c ∈ tl := by
        rcases List.mem_cons.1 hc with h | h
        · exact absurd (h ▸ hhd) hnl
        · exact h
      obtain ⟨e, he, hne⟩ := ih hct
      exact ⟨e, by simp [buildVarColls, hhd, he], hne⟩
    · exact ⟨hd, by simp [buildVarColls, hhd], hhd⟩

/-- C7: the collection builder raises the unsupported-variable error for
every requested variable whose lower-casing is not `"etf"`, and the
unsupported-collection error whenever some requested sensor-collection id
is outside the recognised Landsat Collection-1 TOA set (the raise happens
while building the deferred per-sensor collections, before any scene is
processed); in particular `collection "ETF" ["UNSUPPORTED_SENSOR"]` raises
unsupported-collection and `collection "NDVI" [...]` raises
unsupported-variable. -/
theorem collection_builder_errors :
    (∀ (v : String) (cs : List String), lowerS v ≠ "etf" →
       collection v cs = .error (.unsupportedVariable (lowerS v)))
  ∧ (∀ (v : String) (cs : List String) (c : String), lowerS v = "etf" →
       c ∈ cs → c ∉ landsat_c1_toa_collections →
       ∃ e, collection v cs = .error (.unsupportedCollection e) ∧
         e ∉ landsat_c1_toa_collections)
  ∧ collection "ETF" ["UNSUPPORTED_SENSOR"] =
      .error (.unsupportedCollection "UNSUPPORTED_SENSOR")
  ∧ collection "NDVI" ["LANDSAT/LC08/C01/T1_TOA"] =
      .error (.unsupportedVariable "ndvi") := by
  refine ⟨fun v cs hv => ?_, fun v cs c hv hc hnl => ?_,
    by with_unfolding_all decide, by with_unfolding_all decide⟩
  · simp only [collection]
    by_cases hm : lowerS v ∈ dirImageAttrs
    · rw [if_neg (by simp [hm]), if_pos (by simp [hv])]
    · rw [if_pos hm]
  · simp only [collection]
    rw [if_neg (by simp [hv, dirImageAttrs]), if_neg (by simp [hv])]
    exact buildVarColls_err cs c hc hnl

/-- Witness for C7: the general conjuncts applied at concrete inputs. -/
theorem collection_builder_errors_witness :
    collection "LST" ["LANDSAT/LT05/C01/T1_TOA"] =
      .error (.unsupportedVariable "lst")
  ∧ ∃ e, collection "etf" ["LANDSAT/LT05/C01/T1_TOA", "SENTINEL2"] =
      .error (.unsupportedCollection e) ∧ e ∉ landsat_c1_toa_collections :=
  ⟨collection_builder_errors.1 "LST" ["LANDSAT/LT05/C01/T1_TOA"]
     (by with_unfolding_all decide),
   collection_builder_errors.2.1 "etf" ["LANDSAT/LT05/C01/T1_TOA", "SENTINEL2"]
     "SENTINEL2" (by with_unfolding_all decide)
     (by simp) (by with_unfolding_all decide)⟩

/-- C10: a string source that parses as a float takes the numeric-constant
branch of each resolver — no keyword lookup and no invalid-keyword abort:
Tcorr returns `(value, 3)` for any environment, dT and elevation return
constant images, Tmax returns a constant tagged `CUSTOM_...`; in
particular `"0.95"` parses as 0.95 and `"20"` as 20. -/
theorem numeric_string_sources :
    (∀ (s : String) (q : ℚ), parseFloat s = some q →
       is_number (.str s) = true
     ∧ (∀ (tm : SrcVal) (sid w : String) (mon : Int) (env : TcorrEnv),
          _tcorr (.str s) tm sid w mon env = .ok (q, 3))
     ∧ (∀ (env : DtEnv) (doy : Nat), _dt (.str s) env doy = .ok q)
     ∧ _elev (.str s) = .ok (.const q)
     ∧ (∀ (env : TmaxEnv) (d : String),
          _tmax (.str s) env d =
            .ok ⟨.const q, .custom (.str s), .str s⟩))
  ∧ parseFloat "0.95" = some (19/20)
  ∧ parseFloat "20" = some 20 := by
  refine ⟨fun s q h => ?_, by with_unfolding_all decide,
    by with_unfolding_all decide⟩
  have hn : is_number (.str s) = true := by simp [is_number, h]
  have hv : toNum (.str s) = q := by simp [toNum, h]
  exact ⟨hn,
    fun tm sid w mon env => by rw [_tcorr, if_pos hn, hv],
    fun env doy => by rw [_dt, if_pos hn, hv],
    by rw [_elev, if_pos hn, hv],
    fun env d => by rw [_tmax, tmaxCore, if_pos hn, hv]; rfl⟩

/-- Witness for C10: all four resolvers at the numeric string `"0.95"`. -/
theorem numeric_string_sources_witness :
    _tcorr (.str "0.95") (.str "SCENE") "x" "y" 1 ⟨fun _ => [], fun _ => []⟩ =
      .ok (19/20, 3)
  ∧ _dt (.str "0.95") ⟨fun _ => 0, fun _ => 0⟩ 1 = .ok (19/20)
  ∧ _elev (.str "0.95") = .ok (.const (19/20))
  ∧ _tmax (.str "0.95") ⟨fun _ => 0⟩ "2019-04-20" =
      .ok ⟨.const (19/20), .custom (.str "0.95"), .str "0.95"⟩ :=
  ⟨(numeric_string_sources.1 "0.95" (19/20)
      (by with_unfolding_all decide)).2.1 (.str "SCENE") "x" "y" 1 _,
   (numeric_string_sources.1 "0.95" (19/20)
      (by with_unfolding_all decide)).2.2.1 _ 1,
   (numeric_string_sources.1 "0.95" (19/20)
      (by with_unfolding_all decide)).2.2.2.1,
   (numeric_string_sources.1 "0.95" (19/20)
      (by with_unfolding_all decide)).2.2.2.2 _ "2019-04-20"⟩

/-- C6: an unrecognised non-numeric keyword is fatal for every resolver —
dT outside its two dataset keywords, elevation outside its four datasets
and the two id prefixes, a Tmax key outside the nine-key default table
when Tcorr resolves non-numerically, and a Tcorr source other than
SCENE/MONTH — each resolution returns an error and never a value. -/
theorem invalid_keyword_fatal :
    (∀ (s : String) (env : DtEnv) (doy : Nat),
       is_number (.str s) = false →
       upperS s ∉ ["DAYMET_MEDIAN_V0", "DAYMET_MEDIAN_V1"] →
       _dt (.str s) env doy = .error .exitError)
  ∧ (∀ s : String,
       is_number (.str s) = false →
       upperS s ∉ ["ASSET", "GTOPO", "NED", "SRTM"] →
       startsWithS (lowerS s) "projects/" = false →
       startsWithS (lowerS s) "users/" = false →
       _elev (.str s) = .error .exitError)
  ∧ (∀ (ts tm : SrcVal) (sid w : String) (mon : Int) (env : TcorrEnv),
       is_number ts = false →
       dictFind (srcUpper tm) default_value_dict = none →
       _tcorr ts tm sid w mon env = .error .exitError)
  ∧ (∀ (ts tm : SrcVal) (sid w : String) (mon : Int) (env : TcorrEnv),
       is_number ts = false →
       srcUpper ts ∉ ["SCENE", "MONTH"] →
       ∃ e, _tcorr ts tm sid w mon env = .error e) := by
  refine ⟨fun s env doy hn hk => dt_resolution.2.2.2.1 s env doy hn hk,
    fun s hn hk hp1 hp2 => ?_, fun ts tm sid w mon env hn hd => ?_,
    fun ts tm sid w mon env hn hs => ?_⟩
  · simp only [List.mem_cons, List.mem_singleton, not_or] at hk
    simp only [_elev, srcUpper, srcLower]
    rw [if_neg (by simp [hn]), if_neg hk.1, if_neg hk.2.1,
      if_neg hk.2.2.1, if_neg hk.2.2.2.1, if_neg (by simp [hp1, hp2])]
  · simp only [_tcorr, hd]
    rw [if_neg (by simp [hn])]
  · simp only [List.mem_cons, List.mem_singleton, not_or] at hs
    rcases h1 : dictFind (srcUpper tm) default_value_dict with _ | dv
    · refine ⟨.exitError, ?_⟩
      simp only [_tcorr, h1]
      rw [if_neg (by simp [hn])]
    · rcases h2 : dictFind (srcUpper tm) month_coll_dict with _ | mcid
      · refine ⟨.keyError (srcUpper tm), ?_⟩
        simp only [_tcorr, h1, h2]
        rw [if_neg (by simp [hn])]
      · refine ⟨.exitError, ?_⟩
        simp only [_tcorr, h1, h2]
        rw [if_neg (by simp [hn]), if_neg hs.1, if_neg hs.2.1]

/-- Witness for C6: each abort branch at a concrete unrecognised keyword
(and, for the Tcorr conjuncts, a concrete empty catalog). -/
theorem invalid_keyword_fatal_witness :
    _dt (.str "BOGUS") ⟨fun _ => 0, fun _ => 0⟩ 1 = .error .exitError
  ∧ _elev (.str "BOGUS") = .error .exitError
  ∧ _tcorr (.str "SCENE") (.str "BOGUS") "x" "y" 1 ⟨fun _ => [], fun _ => []⟩ =
      .error .exitError
  ∧ ∃ e, _tcorr (.str "ANNUAL") (.str "GRIDMET") "x" "y" 1
      ⟨fun _ => [], fun _ => []⟩ = .error e :=
  ⟨invalid_keyword_fatal.1 "BOGUS" ⟨fun _ => 0, fun _ => 0⟩ 1
     (by with_unfolding_all decide) (by with_unfolding_all decide),
   invalid_keyword_fatal.2.1 "BOGUS" (by with_unfolding_all decide)
     (by with_unfolding_all decide) (by with_unfolding_all decide)
     (by with_unfolding_all decide),
   invalid_keyword_fatal.2.2.1 (.str "SCENE") (.str "BOGUS") "x" "y" 1
     ⟨fun _ => [], fun _ => []⟩ (by with_unfolding_all decide)
     (by with_unfolding_all decide),
   invalid_keyword_fatal.2.2.2 (.str "ANNUAL") (.str "GRIDMET") "x" "y" 1
     ⟨fun _ => [], fun _ => []⟩ (by with_unfolding_all decide)
     (by with_unfolding_all decide)⟩

lemma sortFirst_mem : ∀ {l : List TcorrFtr} {f : TcorrFtr},
    sortFirst l = some f → f ∈ l := by
  intro l
  induction l with
  | nil => intro f h; exact absurd h (by simp [sortFirst])
  | cons hd tl ih =>
    intro f h
    simp only [sortFirst] at h
    rcases htl : sortFirst tl with _ | g <;> simp only [htl] at h
    · injection h with h
      exact h ▸ List.mem_cons_self _ _
    · split_ifs at h with hle <;> injection h with h
      · exact h ▸ List.mem_cons_self _ _
      · exact h ▸ List.mem_cons_of_mem _ (ih htl)

lemma sortFirst_least : ∀ (pre : List TcorrFtr) (x : TcorrFtr)
    (post : List TcorrFtr),
    (∀ g ∈ pre, x.index < g.index) → (∀ g ∈ post, x.index ≤ g.index) →
    sortFirst (pre ++ x :: post) = some x := by
  intro pre
  induction pre with
  | nil =>
    intro x post _ hpost
    simp only [List.nil_append, sortFirst]
    rcases hp : sortFirst post with _ | g <;> simp only [hp]
    exact if_pos (hpost g (sortFirst_mem hp))
  | cons hd tl ih =>
    intro x post hpre hpost
    have h1 := ih x post (fun g hg => hpre g (List.mem_cons_of_mem _ hg)) hpost
    simp only [List.cons_append, sortFirst, List.append_eq, h1]
    exact if_neg (not_le.2 (hpre hd (List.mem_cons_self _ _)))

lemma sortFirst_dms (dv v : ℚ) (ms ss : List TcorrFtr)
    (hm : ∀ g ∈ ms, g.index = 1) (hs : ∀ g ∈ ss, g.index = 0) :
    sortFirst ([⟨2, dv⟩] ++ ms ++ (⟨0, v⟩ :: ss)) = some ⟨0, v⟩ :=
  sortFirst_least ([⟨2, dv⟩] ++ ms) ⟨0, v⟩ ss
    (by
      intro g hg
      rcases List.mem_append.1 hg with hg | hg
      · rw [List.mem_singleton] at hg
        rw [hg]
        norm_num
      · rw [show (⟨0, v⟩ : TcorrFtr).index = 0 from rfl, hm g hg]
        norm_num)
    (fun g hg => le_of_eq (by rw [hs g hg]))

lemma sortFirst_dm (dv v : ℚ) (ms : List TcorrFtr)
    (hm : ∀ g ∈ ms, g.index = 1) :
    sortFirst ([⟨2, dv⟩] ++ (⟨1, v⟩ :: ms)) = some ⟨1, v⟩ :=
  sortFirst_least [⟨2, dv⟩] ⟨1, v⟩ ms
    (by
      intro g hg
      rw [List.mem_singleton] at hg
      rw [hg]
      norm_num)
    (fun g hg => le_of_eq (by rw [hm g hg]))

/-- C1 counterexample: with `tmaxSource = "TOPOWX"` — one of the nine keys
of the default table — and the valid non-numeric `tcorrSource = "MONTH"`,
the resolver does not return the default record `(0.978, 2)` the claim
requires when no monthly row matches: the monthly-table dict subscript
raises an uncaught `KeyError` (`TOPOWX` is absent from `month_coll_dict`),
so no record is produced at all. -/
theorem tcorr_topowx_keyerror :
    _tcorr (.str "MONTH") (.str "TOPOWX") "LC08_043033_20150805" "p043r033" 8
        ⟨fun _ => [], fun _ => []⟩ = .error (.keyError "TOPOWX")
  ∧ _tcorr (.str "MONTH") (.str "TOPOWX") "LC08_043033_20150805" "p043r033" 8
        ⟨fun _ => [], fun _ => []⟩ ≠ .ok (978/1000, 2) := by
  constructor
  · with_unfolding_all decide
  · with_unfolding_all decide

/-- C1 (amended): restricted to Tmax keys that are present in the scene and
monthly catalog dicts (all nine default-table keys except `TOPOWX`): a
numeric `tcorrSource` returns `(value, 3)` with no lookup; the default
table always yields 0.978; otherwise, under `"SCENE"`, a matching scene
row wins with index 0, else a matching monthly row with index 1, else the
default `(0.978, 2)`; under `"MONTH"` the scene tier is skipped entirely
and a matching monthly row wins with index 1, else `(0.978, 2)`. -/
theorem tcorr_resolution_precedence :
    (∀ (ts tm : SrcVal) (sid w : String) (mon : Int) (env : TcorrEnv),
       is_number ts = true → _tcorr ts tm sid w mon env = .ok (toNum ts, 3))
  ∧ (∀ (k : String) (dv : ℚ),
       dictFind k default_value_dict = some dv → dv = 978/1000)
  ∧ (∀ (ts tm : SrcVal) (sid w : String) (mon : Int) (env : TcorrEnv)
       (dv : ℚ) (mcid scid : String),
       is_number ts = false →
       dictFind (srcUpper tm) default_value_dict = some dv →
       dictFind (srcUpper tm) month_coll_dict = some mcid →
       dictFind (srcUpper tm) scene_coll_dict = some scid →
       ((srcUpper ts = "SCENE" →
          (∀ s rest, sceneMatches env scid sid = s :: rest →
             _tcorr ts tm sid w mon env = .ok (s.2, 0))
        ∧ (sceneMatches env scid sid = [] →
            (∀ m rest, monthMatches env mcid w mon = m :: rest →
               _tcorr ts tm sid w mon env = .ok (m.2.2, 1))
          ∧ (monthMatches env mcid w mon = [] →
               _tcorr ts tm sid w mon env = .ok (dv, 2))))
      ∧ (srcUpper ts = "MONTH" →
          (∀ m rest, monthMatches env mcid w mon = m :: rest →
             _tcorr ts tm sid w mon env = .ok (m.2.2, 1))
        ∧ (monthMatches env mcid w mon = [] →
             _tcorr ts tm sid w mon env = .ok (dv, 2))))) := by
  refine ⟨fun ts tm sid w mon env hn => by rw [_tcorr, if_pos hn],
    fun k dv h => ?_, ?_⟩
  · simp only [default_value_dict, dictFind] at h
    split_ifs at h <;> cases h <;> rfl
  · intro ts tm sid w mon env dv mcid scid hn hdv hmc hsc
    have hmonthIdx : ∀ g ∈ (monthMatches env mcid w mon).map
        (fun r => (⟨1, r.2.2⟩ : TcorrFtr)), g.index = 1 := by
      intro g hg
      obtain ⟨r, _, hr⟩ := List.mem_map.1 hg
      rw [← hr]
    constructor
    · intro hS
      refine ⟨fun s rest hscene => ?_,
        fun hscene => ⟨fun m rest hmonth => ?_, fun hmonth => ?_⟩⟩
      · simp only [_tcorr, hdv, hmc, hsc, hscene, List.map_cons]
        rw [if_neg (by simp [hn]), if_pos hS,
          sortFirst_dms dv s.2 _ _ hmonthIdx (by
            intro g hg
            obtain ⟨r, _, hr⟩ := List.mem_map.1 hg
            rw [← hr])]
      · simp only [_tcorr, hdv, hmc, hsc, hscene, hmonth, List.map_cons,
          List.map_nil, List.append_nil]
        rw [if_neg (by simp [hn]), if_pos hS,
          sortFirst_dm dv m.2.2 _ (by
            intro g hg
            obtain ⟨r, _, hr⟩ := List.mem_map.1 hg
            rw [← hr])]
      · simp only [_tcorr, hdv, hmc, hsc, hscene, hmonth, List.map_nil,
          List.append_nil]
        rw [if_neg (by simp [hn]), if_pos hS]
        rfl
    · intro hM
      have hSne : srcUpper ts ≠ "SCENE" := by
        rw [hM]
        decide
      refine ⟨fun m rest hmonth => ?_, fun hmonth => ?_⟩
      · simp only [_tcorr, hdv, hmc, hmonth, List.map_cons]
        rw [if_neg (by simp [hn]), if_neg hSne, if_pos hM,
          sortFirst_dm dv m.2.2 _ (by
            intro g hg
            obtain ⟨r, _, hr⟩ := List.mem_map.1 hg
            rw [← hr])]
      · simp only [_tcorr, hdv, hmc, hmonth, List.map_nil, List.append_nil]
        rw [if_neg (by simp [hn]), if_neg hSne, if_pos hM]
        rfl

set_option maxRecDepth 4000 in
/-- Witness for C1 (amended): all three tiers exercised in concrete
catalogs — a scene-tier hit (index 0), a monthly-tier hit (index 1) and
the default fallback (index 2). -/
theorem tcorr_resolution_precedence_witness :
    _tcorr (.str "SCENE") (.str "GRIDMET") "LC08_043033_20150805" "p043r033" 8
        ⟨fun _ => [("LC08_043033_20150805", 97/100)],
         fun _ => [("p043r033", 8, 96/100)]⟩ = .ok (97/100, 0)
  ∧ _tcorr (.str "MONTH") (.str "GRIDMET") "LC08_043033_20150805" "p043r033" 8
        ⟨fun _ => [("LC08_043033_20150805", 97/100)],
         fun _ => [("p043r033", 8, 96/100)]⟩ = .ok (96/100, 1)
  ∧ _tcorr (.str "SCENE") (.str "GRIDMET") "LC08_044034_20170716" "p044r034" 7
        ⟨fun _ => [("LC08_043033_20150805", 97/100)],
         fun _ => [("p043r033", 8, 96/100)]⟩ = .ok (978/1000, 2) :=
  ⟨((tcorr_resolution_precedence.2.2 (.str "SCENE") (.str "GRIDMET")
      "LC08_043033_20150805" "p043r033" 8
      ⟨fun _ => [("LC08_043033_20150805", 97/100)],
       fun _ => [("p043r033", 8, 96/100)]⟩ (978/1000)
      "projects/usgs-ssebop/tcorr/gridmet_monthly"
      "projects/usgs-ssebop/tcorr/gridmet_scene"
      (by with_unfolding_all decide) (by with_unfolding_all decide)
      (by with_unfolding_all decide) (by with_unfolding_all decide)).1
      (by with_unfolding_all decide)).1
      ("LC08_043033_20150805", 97/100) [] (by with_unfolding_all decide),
   ((tcorr_resolution_precedence.2.2 (.str "MONTH") (.str "GRIDMET")
      "LC08_043033_20150805" "p043r033" 8
      ⟨fun _ => [("LC08_043033_20150805", 97/100)],
       fun _ => [("p043r033", 8, 96/100)]⟩ (978/1000)
      "projects/usgs-ssebop/tcorr/gridmet_monthly"
      "projects/usgs-ssebop/tcorr/gridmet_scene"
      (by with_unfolding_all decide) (by with_unfolding_all decide)
      (by with_unfolding_all decide) (by with_unfolding_all decide)).2
      (by with_unfolding_all decide)).1
      ("p043r033", 8, 96/100) [] (by with_unfolding_all decide),
   (((tcorr_resolution_precedence.2.2 (.str "SCENE") (.str "GRIDMET")
      "LC08_044034_20170716" "p044r034" 7
      ⟨fun _ => [("LC08_043033_20150805", 97/100)],
       fun _ => [("p043r033", 8, 96/100)]⟩ (978/1000)
      "projects/usgs-ssebop/tcorr/gridmet_monthly"
      "projects/usgs-ssebop/tcorr/gridmet_scene"
      (by with_unfolding_all decide) (by with_unfolding_all decide)
      (by with_unfolding_all decide) (by with_unfolding_all decide)).1
      (by with_unfolding_all decide)).2
      (by with_unfolding_all decide)).2 (by with_unfolding_all decide)⟩

end SSEBop
